import Mathlib

/-!
# Verification of the stellar-rent wallet hook and blockchain service

Shallow embedding of:
* `apps/web/src/services/blockchain.ts` — the blockchain verification client
  (`verifyPropertyWithBlockchain`, `getPropertyBlockchainStatus`,
  `formatBlockchainStatus`, `truncateHash`, `getBlockchainExplorerUrl`);
* the `useWallet` React hook — wallet connection state manager
  (`initializeWallet`, `getPublicKey`, `connect`, `disconnect`,
  `refreshConnection`), modelled as a transition system over `WalletState`.

JavaScript strings are modelled as Lean `String`; `undefined`/`null` as
`Option`; JS truthiness of optional strings (where both absence and the empty
string are falsy) by `jsTruthy`/`jsOr`/`jsOrNull` below.  Promise rejection of
the HTTP client is modelled by `Except String`.  External collaborators
(Freighter extension, balance lookup, HTTP client) are inputs to the
functions/relations, never stubbed to constants.
-/

namespace StellarRent

/-- JS truthiness of an optional string: `undefined`/`null` and `""` are
falsy, every other string is truthy. -/
def jsTruthy : Option String → Bool
  | none => false
  | some s => !s.isEmpty

/-- JS `x || d` for an optional string `x` and string default `d`:
yields `x` when truthy, otherwise `d`. -/
def jsOr (o : Option String) (d : String) : String :=
  match o with
  | none => d
  | some s => if s.isEmpty then d else s

/-- JS `x || null` for an optional string: collapses the falsy values
(`undefined` and `""`) to `null`. -/
def jsOrNull (o : Option String) : Option String :=
  match o with
  | none => none
  | some s => if s.isEmpty then none else some s

/-! ## Data model of `services/blockchain.ts` -/

/-- The fixed `status` enumeration of the on-chain property record. -/
inductive PropertyStatus
  | Available
  | Booked
  | Maintenance
  | Inactive
deriving DecidableEq

/-- The `blockchainData` record inside a `BlockchainVerificationResult`. -/
structure BlockchainData where
  id : String
  data_hash : String
  owner : String
  status : PropertyStatus
deriving DecidableEq

/-- `BlockchainVerificationResult` from `services/blockchain.ts`. -/
structure BlockchainVerificationResult where
  isValid : Bool
  blockchainData : Option BlockchainData
deriving DecidableEq

/-- The response envelope expected from `GET /properties/:id/verify`:
`success, data, error?, message?`.  At runtime `data` may be absent even
though the TS type says otherwise (the code guards on its truthiness), so it
is an `Option`. -/
structure VerifyEnvelope where
  success : Bool
  data : Option BlockchainVerificationResult
  error : Option String
  message : Option String
deriving DecidableEq

/-- `PropertyBlockchainStatus` from `services/blockchain.ts`. -/
structure PropertyBlockchainStatus where
  isVerified : Bool
  blockchainHash : Option String
  lastVerified : Option String
  error : Option String
deriving DecidableEq

/-- The outcome of `await apiUtils.request(...)`: either the promise rejects
(`Except.error` with the thrown message), or it resolves to a value that may
itself be `null`/`undefined` (hence the inner `Option`). -/
abbrev VerifyResponse := Except String (Option VerifyEnvelope)

/-- The `try` body of `verifyPropertyWithBlockchain`: awaits the request,
returns `result.data` when `result?.success && result.data` is truthy, and
otherwise throws `result?.error || 'Verification failed'`. -/
def verifyTryBody (resp : VerifyResponse) : Except String BlockchainVerificationResult :=
  match resp with
  | .error e => .error e
  | .ok result =>
    match result with
    | some r =>
      if r.success then
        match r.data with
        | some d => .ok d
        | none => .error (jsOr r.error "Verification failed")
      else .error (jsOr r.error "Verification failed")
    | none => .error "Verification failed"

/-- `verifyPropertyWithBlockchain`: the `catch` block converts every failure
of the `try` body into `{ isValid: false, blockchainData: undefined }`, so
the function never propagates an exception (it is a total Lean function into
`BlockchainVerificationResult`, not an `Except`). -/
def verifyPropertyWithBlockchain (resp : VerifyResponse) : BlockchainVerificationResult :=
  match verifyTryBody resp with
  | .ok d => d
  | .error _ => { isValid := false, blockchainData := none }

/-- `getPropertyBlockchainStatus`: wraps `verifyPropertyWithBlockchain` and
builds the display record.  `new Date().toISOString()` is modelled by the
parameter `now`.  The surrounding `try/catch` cannot fire: the inner call
never throws and the record construction is total, so the `catch` branch of
the source is dead and the embedding is the `try` branch. -/
def getPropertyBlockchainStatus (resp : VerifyResponse) (now : String) :
    PropertyBlockchainStatus :=
  let verificationResult := verifyPropertyWithBlockchain resp
  { isVerified := verificationResult.isValid
    blockchainHash := verificationResult.blockchainData.map (·.data_hash)
    lastVerified := some now
    error := if verificationResult.isValid then none else some "Data integrity check failed" }

/-- The badge colors used by `formatBlockchainStatus`. -/
inductive StatusColor
  | green
  | red
  | yellow
deriving DecidableEq

/-- The display record returned by `formatBlockchainStatus`. -/
structure FormattedStatus where
  text : String
  color : StatusColor
  icon : String
deriving DecidableEq

/-- `formatBlockchainStatus`: `if (status.error)` tests JS truthiness of the
optional string, then `if (status.isVerified)`, else the fallback. -/
def formatBlockchainStatus (status : PropertyBlockchainStatus) : FormattedStatus :=
  if jsTruthy status.error then
    { text := "Verification Failed", color := .red, icon := "❌" }
  else if status.isVerified then
    { text := "Verified on Blockchain", color := .green, icon := "✅" }
  else
    { text := "Not Verified", color := .yellow, icon := "⚠️" }

/-- JS `hash.slice(-n)`.  For `n ≥ 1` (and `n ≤ hash.length`, which holds at
the call site) this is the last `n` characters.  For `n = 0`, JS computes
`slice(-0) = slice(0)`, the whole string — not the empty string. -/
def jsSliceNeg (s : String) (n : Nat) : String :=
  if n = 0 then s else s.drop (s.length - n)

/-- `truncateHash(hash, length = 8)`: identity when
`hash.length <= length * 2`, otherwise
`hash.slice(0, length) + '...' + hash.slice(-length)`. -/
def truncateHash (hash : String) (len : Nat := 8) : String :=
  if hash.length ≤ len * 2 then hash
  else hash.take len ++ "..." ++ jsSliceNeg hash len

/-- The environment variables read by `getBlockchainExplorerUrl`. -/
structure ExplorerEnv where
  NEXT_PUBLIC_STELLAR_EXPLORER_URL : Option String
  NEXT_PUBLIC_STELLAR_NETWORK : Option String

/-- The optional `opts` argument of `getBlockchainExplorerUrl`.  The
`resourceType`/`network` unions are modelled as strings (their values are
the string literals of the union). -/
structure ExplorerOpts where
  resourceType : Option String
  network : Option String
  baseUrl : Option String

/-- `.replace(/\/+$/, '')`: strip every trailing `/`. -/
def stripTrailingSlashes (s : String) : String :=
  String.mk ((s.data.reverse.dropWhile (fun c => c = '/')).reverse)

/-- `getBlockchainExplorerUrl(resourceId, opts?)`: each knob falls through
`opts?.x || env var || default` (JS `||`, so empty strings also fall
through), the base is stripped of trailing slashes, and the result is the
template literal `base/network/type/resourceId`. -/
def getBlockchainExplorerUrl (env : ExplorerEnv) (resourceId : String)
    (opts : Option ExplorerOpts) : String :=
  let base := stripTrailingSlashes
    (jsOr (opts.bind (·.baseUrl)) (jsOr env.NEXT_PUBLIC_STELLAR_EXPLORER_URL "https://stellar.expert/explorer"))
  let network := jsOr (opts.bind (·.network)) (jsOr env.NEXT_PUBLIC_STELLAR_NETWORK "testnet")
  let type := jsOr (opts.bind (·.resourceType)) "tx"
  base ++ "/" ++ network ++ "/" ++ type ++ "/" ++ resourceId

/-! ## Data model of the `useWallet` hook -/

/-- The `WalletState` record of the hook. -/
structure WalletState where
  isConnected : Bool
  publicKey : Option String
  network : Option String
  networkPassphrase : Option String
  isInstalled : Bool
  isAllowed : Bool
  isLoading : Bool
  error : Option String
  usdcBalance : Option String
deriving DecidableEq

/-- The `useState` initial value of the hook. -/
def initialWalletState : WalletState :=
  { isConnected := false
    publicKey := none
    network := none
    networkPassphrase := none
    isInstalled := false
    isAllowed := false
    isLoading := true
    error := none
    usdcBalance := none }

/-- `checkFreighterConnection()` result. -/
structure FreighterConnection where
  isInstalled : Bool
  isConnected : Bool
  error : Option String
deriving DecidableEq

/-- `checkFreighterPermission()` result. -/
structure FreighterPermission where
  isAllowed : Bool
deriving DecidableEq

/-- `getFreighterAddress()` result. -/
structure AddressResult where
  address : Option String
deriving DecidableEq

/-- `connectFreighter()` result. -/
structure ConnectResult where
  address : Option String
  error : Option String
deriving DecidableEq

/-- `getFreighterNetwork()` result. -/
structure NetworkResult where
  network : Option String
  networkPassphrase : Option String
deriving DecidableEq

/-- The external calls `initializeWallet` can make, for tracing which
collaborators were invoked on a run. -/
inductive ExtCall
  | connection
  | permission
  | address
  | network
  | balance
deriving DecidableEq

/-- The responses the environment would give to each call made during one
run of `initializeWallet` (the run is sequential, one response each). -/
structure InitEnv where
  conn : FreighterConnection
  perm : FreighterPermission
  addr : AddressResult
  net : NetworkResult
  bal : Option String

/-- The non-throwing runs of `initializeWallet`, returning the committed
state update applied to the previous state together with the trace of
external calls, in call order (address/network are issued by one
`Promise.all`; the trace lists them in source order). -/
def initializeWallet (env : InitEnv) (prev : WalletState) : WalletState × List ExtCall :=
  if !env.conn.isInstalled then
    ({ prev with
        isInstalled := false
        isLoading := false
        error := some (jsOr env.conn.error "Freighter not installed") },
      [ExtCall.connection])
  else
    let isAllowed := env.perm.isAllowed
    let isConnected := env.conn.isConnected && isAllowed
    if isConnected then
      let publicKey := jsOrNull env.addr.address
      let usdcBalance := if publicKey.isSome then env.bal else none
      ({ isConnected := true,
          publicKey := jsOrNull env.addr.address,
          network := jsOrNull env.net.network,
          networkPassphrase := jsOrNull env.net.networkPassphrase,
          isInstalled := true,
          isAllowed := true,
          isLoading := false,
          error := none,
          usdcBalance := usdcBalance },
        [ExtCall.connection, ExtCall.permission, ExtCall.address, ExtCall.network]
          ++ if publicKey.isSome then [ExtCall.balance] else [])
    else
      ({ prev with
          isConnected := false
          isInstalled := true
          isAllowed := isAllowed
          isLoading := false
          error := none
          usdcBalance := none },
        [ExtCall.connection, ExtCall.permission])

/-- The `catch` block of `initializeWallet`: applied when any awaited step
throws with message `msg` (`error instanceof Error ? error.message : ...`). -/
def initializeWalletCatch (prev : WalletState) (msg : String) : WalletState :=
  { prev with
      isInstalled := false
      isLoading := false
      error := some msg
      usdcBalance := none }

/-- The state update committed by the success path of `getPublicKey` after
`connectFreighter` returned a truthy address and no truthy error. -/
def getPublicKeySuccess (prev : WalletState) (cr : ConnectResult)
    (net : NetworkResult) (bal : Option String) : WalletState :=
  { prev with
      isConnected := true
      publicKey := jsOrNull cr.address
      network := jsOrNull net.network
      networkPassphrase := jsOrNull net.networkPassphrase
      isInstalled := true
      isAllowed := true
      error := none
      usdcBalance := bal }

/-- `disconnect()`: local-only reset, no external call is made. -/
def disconnect (prev : WalletState) : WalletState :=
  { prev with
      isConnected := false
      publicKey := none
      network := none
      networkPassphrase := none
      usdcBalance := none }

/-- The full state committed by a successful `refreshConnection()` run. -/
def refreshConnectionSuccess (conn : FreighterConnection) (addr : AddressResult)
    (net : NetworkResult) (bal : Option String) : WalletState :=
  { isConnected := conn.isConnected && jsTruthy addr.address
    publicKey := jsOrNull addr.address
    network := jsOrNull net.network
    networkPassphrase := jsOrNull net.networkPassphrase
    isInstalled := conn.isInstalled
    isAllowed := jsTruthy addr.address
    isLoading := false
    error := none
    usdcBalance := if jsTruthy addr.address then bal else none }

/-- One committed `setWalletState` of the hook.  Each constructor is one
state commit of one operation; an operation that commits several times
(e.g. `connect`: loading commit, then `getPublicKey`'s commit, then the
`catch`/`finally` commits) appears as several consecutive steps. -/
inductive WalletStep : WalletState → WalletState → Prop
  /-- A non-throwing `initializeWallet` run with environment `env`. -/
  | initRun (s : WalletState) (env : InitEnv) :
      WalletStep s (initializeWallet env s).1
  /-- The `catch` block of `initializeWallet` after some step threw `msg`. -/
  | initCatch (s : WalletState) (msg : String) :
      WalletStep s (initializeWalletCatch s msg)
  /-- `getPublicKey`, connect path: not already connected-with-key,
  `connectFreighter` returned no truthy error and a truthy address. -/
  | getPublicKeyConnect (s : WalletState) (cr : ConnectResult) (net : NetworkResult)
      (bal : Option String)
      (hpre : ¬(s.isConnected = true ∧ jsTruthy s.publicKey = true))
      (herr : jsTruthy cr.error = false) (haddr : jsTruthy cr.address = true) :
      WalletStep s (getPublicKeySuccess s cr net bal)
  /-- The `catch` block of `getPublicKey` (any awaited call threw, or the
  connect result carried an error / no address). -/
  | getPublicKeyCatch (s : WalletState) (msg : String) :
      WalletStep s { s with error := some msg, usdcBalance := none }
  /-- `connect()`: the initial `isLoading: true, error: null` commit. -/
  | connectStart (s : WalletState) :
      WalletStep s { s with isLoading := true, error := none }
  /-- `connect()`: the `catch` commit after `getPublicKey` re-threw. -/
  | connectCatch (s : WalletState) (msg : String) :
      WalletStep s { s with isLoading := false, error := some msg }
  /-- `connect()`: the `finally` commit. -/
  | connectFinally (s : WalletState) :
      WalletStep s { s with isLoading := false }
  /-- `disconnect()`. -/
  | disconnectRun (s : WalletState) :
      WalletStep s (disconnect s)
  /-- `refreshConnection()`: the initial `isLoading: true` commit. -/
  | refreshStart (s : WalletState) :
      WalletStep s { s with isLoading := true }
  /-- `refreshConnection()`: the full-state commit of a non-throwing run. -/
  | refreshSuccess (s : WalletState) (conn : FreighterConnection)
      (addr : AddressResult) (net : NetworkResult) (bal : Option String) :
      WalletStep s (refreshConnectionSuccess conn addr net bal)
  /-- `refreshConnection()`: the `catch` commit. -/
  | refreshCatch (s : WalletState) (msg : String) :
      WalletStep s { s with isLoading := false, error := some msg, usdcBalance := none }

/-- The wallet states reachable from the hook's initial state by committed
operations. -/
inductive ReachableWallet : WalletState → Prop
  | init : ReachableWallet initialWalletState
  | step {s s' : WalletState} :
      ReachableWallet s → WalletStep s s' → ReachableWallet s'

/-- A wallet state produced by one `refreshConnection()` in which Freighter
reports `isConnected: false` while `getFreighterAddress` still returns an
address. -/
def c1RefreshedState : WalletState :=
  refreshConnectionSuccess
    { isInstalled := true, isConnected := false, error := none }
    { address := some "GABC" }
    { network := some "TESTNET", networkPassphrase := some "Test SDF Network ; September 2015" }
    (some "100")

/-! ## Helper lemmas -/

lemma string_length_take (s : String) (n : Nat) : (s.take n).length = min n s.length := by
  rw [show (s.take n).length = (s.take n).data.length from rfl, String.data_take,
    List.length_take]
  rfl

lemma string_length_drop (s : String) (n : Nat) : (s.drop n).length = s.length - n := by
  rw [show (s.drop n).length = (s.drop n).data.length from rfl, String.data_drop,
    List.length_drop]
  rfl

lemma string_take_zero (s : String) : s.take 0 = "" := by
  apply String.ext
  simp [String.data_take]

lemma string_pos_of_ne_empty (s : String) (h : s ≠ "") : 0 < s.length := by
  rcases s with ⟨d⟩
  cases d with
  | nil => exact absurd rfl h
  | cons a l => simp [String.length]

/-! ## Claims about `services/blockchain.ts` -/

/-- C2, counterexample: on an invalid verification (here: the HTTP request
rejects, so `verifyPropertyWithBlockchain` yields `isValid: false`),
`getPropertyBlockchainStatus` nevertheless stamps `lastVerified` with the
current timestamp — contradicting "sets the lastVerified timestamp only when
verification succeeds". -/
theorem c2_counterexample :
    (getPropertyBlockchainStatus (Except.error "network down") "2026-01-01T00:00:00.000Z").isVerified = false ∧
    (getPropertyBlockchainStatus (Except.error "network down") "2026-01-01T00:00:00.000Z").lastVerified = some "2026-01-01T00:00:00.000Z" ∧
    (getPropertyBlockchainStatus (Except.error "network down") "2026-01-01T00:00:00.000Z").error = some "Data integrity check failed" :=
  ⟨rfl, rfl, rfl⟩

/-- C2 (amended): `getPropertyBlockchainStatus` stamps `lastVerified` with
the current timestamp on every completed call, valid or not; whenever the
verification result is invalid it returns the fixed error string
"Data integrity check failed", and when valid it returns no error. -/
theorem c2_amended_holds :
    (∀ (resp : VerifyResponse) (now : String),
      (getPropertyBlockchainStatus resp now).lastVerified = some now) ∧
    (∀ (resp : VerifyResponse) (now : String),
      (verifyPropertyWithBlockchain resp).isValid = false →
        (getPropertyBlockchainStatus resp now).error = some "Data integrity check failed") ∧
    (∀ (resp : VerifyResponse) (now : String),
      (verifyPropertyWithBlockchain resp).isValid = true →
        (getPropertyBlockchainStatus resp now).error = none) := by
  refine ⟨fun resp now => rfl, fun resp now h => ?_, fun resp now h => ?_⟩ <;>
    simp [getPropertyBlockchainStatus, h]

/-- C2, witness for the amended theorem at a concrete invalid run. -/
theorem c2_amended_witness :
    (getPropertyBlockchainStatus (Except.error "boom") "2026-02-02T00:00:00.000Z").error =
      some "Data integrity check failed" :=
  c2_amended_holds.2.1 (Except.error "boom") "2026-02-02T00:00:00.000Z" rfl

/-- C3, counterexample: with `length = 0` and the non-empty hash `"a"`,
`truncateHash` does not produce just the ellipsis: JS `slice(-0)` is
`slice(0)`, the whole string, so the result is `"...a"`. -/
theorem c3_counterexample :
    truncateHash "a" 0 = "...a" ∧ truncateHash "a" 0 ≠ "..." := by
  constructor
  · rfl
  · decide

/-- C3 (amended): `truncateHash hash n` returns `hash` unchanged whenever
`hash.length ≤ 2 * n`; for `n ≥ 1` it otherwise returns the first `n`
characters, then "...", then the last `n` characters — a string of length
`2 * n + 3`; for `n = 0` and a non-empty hash it returns "..." followed by
the whole hash (JS `slice(-0)` is the whole string), and it never crashes
(it is a total function). -/
theorem c3_amended_holds :
    (∀ (s : String) (n : Nat), s.length ≤ 2 * n → truncateHash s n = s) ∧
    (∀ (s : String) (n : Nat), 1 ≤ n → 2 * n < s.length →
      truncateHash s n = s.take n ++ "..." ++ s.drop (s.length - n) ∧
        (truncateHash s n).length = 2 * n + 3) ∧
    (∀ s : String, s ≠ "" → truncateHash s 0 = "..." ++ s) := by
  refine ⟨fun s n h => ?_, fun s n h1 h2 => ?_, fun s hs => ?_⟩
  · rw [truncateHash, if_pos (by omega)]
  · have heq : truncateHash s n = s.take n ++ "..." ++ s.drop (s.length - n) := by
      rw [truncateHash, if_neg (by omega), jsSliceNeg, if_neg (by omega)]
    refine ⟨heq, ?_⟩
    rw [heq, String.length_append, String.length_append, string_length_take,
      string_length_drop]
    have h3 : ("..." : String).length = 3 := rfl
    rw [h3]
    omega
  · have h0 : 0 < s.length := string_pos_of_ne_empty s hs
    rw [truncateHash, if_neg (by omega), jsSliceNeg, if_pos rfl, string_take_zero,
      String.empty_append]

/-- C3, witness for the amended theorem: a hash of length 10 with `n = 4`. -/
theorem c3_amended_witness :
    truncateHash "0123456789" 4 = "0123...6789" ∧ (truncateHash "0123456789" 4).length = 2 * 4 + 3 := by
  have h := c3_amended_holds.2.1 "0123456789" 4 (by decide) (by decide)
  exact ⟨h.1.trans (by decide), h.2⟩

/-- C4: `verifyPropertyWithBlockchain` is a total function (the `catch`
converts every rejection into a value, so no exception reaches the caller);
when the envelope has `success: true` and `data` present it returns that
data unchanged, and in every other case it returns
`isValid: false, blockchainData: undefined`. -/
theorem c4_never_throws (resp : VerifyResponse) :
    (∀ (r : VerifyEnvelope) (d : BlockchainVerificationResult),
      resp = Except.ok (some r) → r.success = true → r.data = some d →
        verifyPropertyWithBlockchain resp = d) ∧
    (verifyPropertyWithBlockchain resp = { isValid := false, blockchainData := none } ∨
      ∃ (r : VerifyEnvelope) (d : BlockchainVerificationResult),
        resp = Except.ok (some r) ∧ r.success = true ∧ r.data = some d) := by
  constructor
  · rintro r d rfl hs hd
    simp [verifyPropertyWithBlockchain, verifyTryBody, hs, hd]
  · rcases resp with m | result
    · left; rfl
    · rcases result with _ | r
      · left; rfl
      · by_cases hs : r.success = true
        · rcases hd : r.data with _ | d
          · left; simp [verifyPropertyWithBlockchain, verifyTryBody, hs, hd]
          · right; exact ⟨r, d, rfl, hs, hd⟩
        · left
          have hs' : r.success = false := by
            cases h : r.success
            · rfl
            · exact absurd h hs
          simp [verifyPropertyWithBlockchain, verifyTryBody, hs']

/-- C4, witness: a successful envelope whose data is returned unchanged. -/
theorem c4_witness :
    verifyPropertyWithBlockchain (Except.ok (some
      { success := true, data := some { isValid := true, blockchainData := some { id := "p1", data_hash := "h1", owner := "o1", status := PropertyStatus.Available } }, error := none, message := none })) =
      { isValid := true, blockchainData := some { id := "p1", data_hash := "h1", owner := "o1", status := PropertyStatus.Available } } :=
  (c4_never_throws _).1 _ _ rfl rfl rfl

/-- C5, counterexample: a status whose `error` field is set to the empty
string is falsy in JS, so `formatBlockchainStatus` returns green, not red —
contradicting "for every status with error set it returns red". -/
theorem c5_counterexample :
    formatBlockchainStatus { isVerified := true, blockchainHash := none, lastVerified := none, error := some "" } =
      { text := "Verified on Blockchain", color := StatusColor.green, icon := "✅" } ∧
    (formatBlockchainStatus { isVerified := true, blockchainHash := none, lastVerified := none, error := some "" }).color ≠ StatusColor.red := by
  constructor
  · rfl
  · decide

/-- C5 (amended): `formatBlockchainStatus` is a pure total function over
three mutually exclusive cases determined by JS truthiness: for every
status with a truthy (non-empty) error it returns red/"Verification Failed"
regardless of `isVerified`; without a truthy error and `isVerified` true it
returns green/"Verified on Blockchain"; otherwise yellow/"Not Verified". -/
theorem c5_amended_holds (status : PropertyBlockchainStatus) :
    (jsTruthy status.error = true →
      formatBlockchainStatus status =
        { text := "Verification Failed", color := StatusColor.red, icon := "❌" }) ∧
    (jsTruthy status.error = false → status.isVerified = true →
      formatBlockchainStatus status =
        { text := "Verified on Blockchain", color := StatusColor.green, icon := "✅" }) ∧
    (jsTruthy status.error = false → status.isVerified = false →
      formatBlockchainStatus status =
        { text := "Not Verified", color := StatusColor.yellow, icon := "⚠️" }) := by
  refine ⟨fun h => ?_, fun h hv => ?_, fun h hv => ?_⟩ <;>
    simp [formatBlockchainStatus, *]

/-- C5, witness: a non-empty error wins over `isVerified: true`. -/
theorem c5_amended_witness :
    formatBlockchainStatus { isVerified := true, blockchainHash := none, lastVerified := none, error := some "boom" } =
      { text := "Verification Failed", color := StatusColor.red, icon := "❌" } :=
  (c5_amended_holds { isVerified := true, blockchainHash := none, lastVerified := none, error := some "boom" }).1 rfl

/-- C10: a status whose `error` equals the empty string is treated as if no
error were present: the result is green when `isVerified` and yellow
otherwise, never red. -/
theorem c10_empty_error (status : PropertyBlockchainStatus) (he : status.error = some "") :
    formatBlockchainStatus status =
      (if status.isVerified then
        { text := "Verified on Blockchain", color := StatusColor.green, icon := "✅" }
      else
        { text := "Not Verified", color := StatusColor.yellow, icon := "⚠️" }) ∧
    (formatBlockchainStatus status).color ≠ StatusColor.red := by
  have h : jsTruthy status.error = false := by rw [he]; rfl
  constructor
  · by_cases hv : status.isVerified = true <;> simp [formatBlockchainStatus, h, hv]
  · by_cases hv : status.isVerified = true <;> simp [formatBlockchainStatus, h, hv]

/-- C10, witness at a concrete verified status with empty-string error. -/
theorem c10_witness :
    (formatBlockchainStatus { isVerified := true, blockchainHash := none, lastVerified := none, error := some "" }).color ≠ StatusColor.red :=
  (c10_empty_error { isVerified := true, blockchainHash := none, lastVerified := none, error := some "" } rfl).2

/-- C9: `getBlockchainExplorerUrl` builds `base/network/type/resourceId`:
with no env and no opts it uses the defaults
`https://stellar.expert/explorer`, `testnet`, `tx`; explicit options win
over everything (with trailing slashes stripped from the base, shown both
concretely and for every truthy option triple); env configuration is used
when no option is given. -/
theorem c9_explorer_url (resourceId : String) :
    getBlockchainExplorerUrl
        { NEXT_PUBLIC_STELLAR_EXPLORER_URL := none, NEXT_PUBLIC_STELLAR_NETWORK := none }
        resourceId none =
      "https://stellar.expert/explorer/testnet/tx/" ++ resourceId ∧
    getBlockchainExplorerUrl
        { NEXT_PUBLIC_STELLAR_EXPLORER_URL := none, NEXT_PUBLIC_STELLAR_NETWORK := none }
        resourceId
        (some { resourceType := some "contract", network := some "public", baseUrl := some "https://x.com/" }) =
      "https://x.com/public/contract/" ++ resourceId ∧
    getBlockchainExplorerUrl
        { NEXT_PUBLIC_STELLAR_EXPLORER_URL := some "https://env.example/", NEXT_PUBLIC_STELLAR_NETWORK := some "public" }
        resourceId none =
      "https://env.example/public/tx/" ++ resourceId ∧
    (∀ (env : ExplorerEnv) (b net ty : String),
      b.isEmpty = false → net.isEmpty = false → ty.isEmpty = false →
        getBlockchainExplorerUrl env resourceId
          (some { resourceType := some ty, network := some net, baseUrl := some b }) =
        stripTrailingSlashes b ++ "/" ++ net ++ "/" ++ ty ++ "/" ++ resourceId) := by
  refine ⟨rfl, rfl, rfl, fun env b net ty hb hnet hty => ?_⟩
  simp [getBlockchainExplorerUrl, jsOr, hb, hnet, hty]

/-- C9, witness for the option-tier conjunct: explicit options override a
populated environment, trailing slash stripped. -/
theorem c9_witness :
    getBlockchainExplorerUrl
      { NEXT_PUBLIC_STELLAR_EXPLORER_URL := some "https://ignored.example", NEXT_PUBLIC_STELLAR_NETWORK := some "testnet" }
      "abc"
      (some { resourceType := some "contract", network := some "public", baseUrl := some "https://x.com/" }) = "https://x.com/public/contract/abc" :=
  ((c9_explorer_url "abc").2.2.2
    { NEXT_PUBLIC_STELLAR_EXPLORER_URL := some "https://ignored.example", NEXT_PUBLIC_STELLAR_NETWORK := some "testnet" }
    "https://x.com/" "public" "contract" rfl rfl rfl).trans rfl

/-! ## Claims about the `useWallet` hook -/

/-- C1, counterexample: from the initial state, one `refreshConnection()`
run in which Freighter reports `isConnected: false` while the address fetch
still returns an address commits a reachable state with
`publicKey ≠ null` and `isAllowed = true` but `isConnected = false`, so
the biconditional `isConnected ↔ (publicKey ≠ null ∧ isAllowed)` fails. -/
theorem c1_counterexample :
    ReachableWallet c1RefreshedState ∧
    ¬(c1RefreshedState.isConnected = true ↔
      (c1RefreshedState.publicKey ≠ none ∧ c1RefreshedState.isAllowed = true)) := by
  refine ⟨ReachableWallet.step ReachableWallet.init
    (WalletStep.refreshSuccess initialWalletState _ _ _ _), ?_⟩
  decide

/-- C1 (amended): for every reachable `WalletState`,
`isConnected = true` implies `isAllowed = true`.  The other parts of the
claimed biconditional fail: `refreshConnection` can commit
`isAllowed = true` with a non-null `publicKey` while `isConnected = false`,
and the connected initialization path can commit `isConnected = true` with
`publicKey = null` when Freighter returns no address. -/
theorem c1_amended_invariant (s : WalletState) (hr : ReachableWallet s)
    (hc : s.isConnected = true) : s.isAllowed = true := by
  induction hr with
  | init => exact absurd hc (by decide)
  | step hr hstep ih =>
    cases hstep with
    | initRun env =>
      by_cases h1 : env.conn.isInstalled = false
      · simp [initializeWallet, h1] at hc ⊢
        exact ih hc
      · by_cases h2 : env.conn.isConnected = true ∧ env.perm.isAllowed = true
        · simp [initializeWallet, h1, h2]
        · simp [initializeWallet, h1, h2] at hc
    | initCatch msg => exact ih hc
    | getPublicKeyConnect cr net bal hpre herr haddr => rfl
    | getPublicKeyCatch msg => exact ih hc
    | connectStart => exact ih hc
    | connectCatch msg => exact ih hc
    | connectFinally => exact ih hc
    | disconnectRun => exact absurd hc (by simp [disconnect])
    | refreshStart => exact ih hc
    | refreshSuccess conn addr net bal =>
      simp only [refreshConnectionSuccess, Bool.and_eq_true] at hc
      exact hc.2
    | refreshCatch msg => exact ih hc

/-- C1, witness for the amended theorem: a concrete connected state reached
by `getPublicKey` from the initial state has `isAllowed = true`. -/
theorem c1_amended_witness :
    (getPublicKeySuccess initialWalletState { address := some "GABC", error := none }
      { network := none, networkPassphrase := none } none).isAllowed = true :=
  c1_amended_invariant _
    (ReachableWallet.step ReachableWallet.init
      (WalletStep.getPublicKeyConnect initialWalletState
        { address := some "GABC", error := none }
        { network := none, networkPassphrase := none } none
        (by decide) (by decide) (by decide)))
    (by decide)

/-- C6, counterexample: the `catch` block of wallet initialization does not
preserve `isInstalled` — applied to a prior state with
`isInstalled = true`, it resets it to `false`. -/
theorem c6_counterexample :
    (initializeWalletCatch { isConnected := false, publicKey := none, network := none, networkPassphrase := none, isInstalled := true, isAllowed := false, isLoading := true, error := none, usdcBalance := none } "boom").isInstalled = false ∧
    WalletState.isInstalled { isConnected := false, publicKey := none, network := none, networkPassphrase := none, isInstalled := true, isAllowed := false, isLoading := true, error := none, usdcBalance := none } = true :=
  ⟨rfl, rfl⟩

/-- C6 (amended): when any step of wallet initialization throws, the `catch`
transition preserves `isConnected`, `publicKey`, `network`,
`networkPassphrase` and `isAllowed`, clears the balance
(`usdcBalance = null`), clears `isLoading`, sets `error` to the failure
message — and additionally forces `isInstalled` to `false`, which the claim
omitted. -/
theorem c6_amended_holds (prev : WalletState) (msg : String) :
    (initializeWalletCatch prev msg).isConnected = prev.isConnected ∧
    (initializeWalletCatch prev msg).publicKey = prev.publicKey ∧
    (initializeWalletCatch prev msg).network = prev.network ∧
    (initializeWalletCatch prev msg).networkPassphrase = prev.networkPassphrase ∧
    (initializeWalletCatch prev msg).isAllowed = prev.isAllowed ∧
    (initializeWalletCatch prev msg).isInstalled = false ∧
    (initializeWalletCatch prev msg).isLoading = false ∧
    (initializeWalletCatch prev msg).usdcBalance = none ∧
    (initializeWalletCatch prev msg).error = some msg :=
  ⟨rfl, rfl, rfl, rfl, rfl, rfl, rfl, rfl, rfl⟩

/-- C7: whenever the connection check reports the extension absent
(`isInstalled: false`), initialization commits
`isInstalled = false, isLoading = false` with `error` set to the detected
reason (`connectionStatus.error || 'Freighter not installed'`), and the
permission/address/network collaborators are never called. -/
theorem c7_absent_extension (env : InitEnv) (prev : WalletState)
    (h : env.conn.isInstalled = false) :
    (initializeWallet env prev).1.isInstalled = false ∧
    (initializeWallet env prev).1.isLoading = false ∧
    (initializeWallet env prev).1.error = some (jsOr env.conn.error "Freighter not installed") ∧
    ExtCall.permission ∉ (initializeWallet env prev).2 ∧
    ExtCall.address ∉ (initializeWallet env prev).2 ∧
    ExtCall.network ∉ (initializeWallet env prev).2 := by
  simp [initializeWallet, h]

/-- C7, witness at a concrete absent-extension environment. -/
theorem c7_witness :
    (initializeWallet { conn := { isInstalled := false, isConnected := false, error := none }, perm := { isAllowed := true }, addr := { address := some "GABC" }, net := { network := none, networkPassphrase := none }, bal := none } initialWalletState).1.isInstalled = false ∧
    (initializeWallet { conn := { isInstalled := false, isConnected := false, error := none }, perm := { isAllowed := true }, addr := { address := some "GABC" }, net := { network := none, networkPassphrase := none }, bal := none } initialWalletState).1.isLoading = false ∧
    (initializeWallet { conn := { isInstalled := false, isConnected := false, error := none }, perm := { isAllowed := true }, addr := { address := some "GABC" }, net := { network := none, networkPassphrase := none }, bal := none } initialWalletState).1.error = some (jsOr none "Freighter not installed") ∧
    ExtCall.permission ∉ (initializeWallet { conn := { isInstalled := false, isConnected := false, error := none }, perm := { isAllowed := true }, addr := { address := some "GABC" }, net := { network := none, networkPassphrase := none }, bal := none } initialWalletState).2 ∧
    ExtCall.address ∉ (initializeWallet { conn := { isInstalled := false, isConnected := false, error := none }, perm := { isAllowed := true }, addr := { address := some "GABC" }, net := { network := none, networkPassphrase := none }, bal := none } initialWalletState).2 ∧
    ExtCall.network ∉ (initializeWallet { conn := { isInstalled := false, isConnected := false, error := none }, perm := { isAllowed := true }, addr := { address := some "GABC" }, net := { network := none, networkPassphrase := none }, bal := none } initialWalletState).2 :=
  c7_absent_extension _ _ rfl

/-- C8: `disconnect()` is a local-only reset (its embedding takes no
extension input at all): it clears `isConnected`, `publicKey`, `network`,
`networkPassphrase` and `usdcBalance`, and leaves `isInstalled`,
`isAllowed`, `isLoading` and `error` unchanged, for every prior state. -/
theorem c8_disconnect_frame (prev : WalletState) :
    (disconnect prev).isConnected = false ∧
    (disconnect prev).publicKey = none ∧
    (disconnect prev).network = none ∧
    (disconnect prev).networkPassphrase = none ∧
    (disconnect prev).usdcBalance = none ∧
    (disconnect prev).isInstalled = prev.isInstalled ∧
    (disconnect prev).isAllowed = prev.isAllowed ∧
    (disconnect prev).isLoading = prev.isLoading ∧
    (disconnect prev).error = prev.error :=
  ⟨rfl, rfl, rfl, rfl, rfl, rfl, rfl, rfl, rfl⟩

end StellarRent
